import Mathlib

/-!
Verification development for the `geckoterminal-api` TypeScript client
(`src/geckoterminal.ts`).

The client is shallowly embedded: each endpoint method's argument
validation and request construction becomes a pure Lean function, and the
HTTP transport (axios) becomes an explicit oracle parameter
`RequestSpec → Except Outcome (ApiResp _)`.  JavaScript `undefined` is
modelled as `Option.none`; JavaScript string truthiness (the empty string
is falsy) is modelled explicitly; JS numbers appearing in this client are
modelled as `Int` (the client only ever compares and defaults them).
Fallible methods return `Except`, mirroring synchronous `throw` /
promise rejection.
-/

namespace GT

/-- A query-parameter value as this client produces them: a JS string or a
JS number (only integral values occur in the client). -/
inductive ParamVal where
  | str (s : String)
  | int (n : Int)
deriving Repr, DecidableEq

/-- The query-parameter mapping handed to the transport.  A value of
`none` models a key whose value is JS `undefined`. -/
abbrev QueryParams := List (String × Option ParamVal)

/-- A `RequestSpec`: endpoint path plus query parameters, exactly the pair
each endpoint method passes to `this._get(endpoint, params)`. -/
structure RequestSpec where
  path : String
  params : QueryParams
deriving Repr, DecidableEq

/-- Rendering of a parameter value into the query string. -/
def renderParam : ParamVal → String
  | .str s => s
  | .int n => toString n

/-- Modelled from the spec: query-string serialization is performed by the
HTTP transport collaborator (axios), which is outside this repository.
Per the spec (§4.1), entries whose value is `undefined` are dropped and
never appear in the outgoing query string. -/
def serializeQuery (qp : QueryParams) : List (String × String) :=
  qp.filterMap (fun p => p.2.map (fun v => (p.1, renderParam v)))

/-- JS `o || d` for an optional string: `undefined` and `""` are falsy. -/
def jsOrStr (o : Option String) (d : String) : String :=
  match o with
  | some s => if s = "" then d else s
  | none => d

/-- JS truthiness filter for an optional string: keeps the string only
when it is defined and non-empty. -/
def jsStrOpt (o : Option String) : Option String :=
  match o with
  | some s => if s = "" then none else some s
  | none => none

/-! ## Error normalizer (`_handleRequestError`) -/

/-- One element of the `errors` array of an error response body; `detail`
and `title` may each be absent. -/
structure ErrObj where
  detail : Option String := none
  title : Option String := none
deriving Repr, DecidableEq

/-- An error-response body; `errors` is `some l` when the body carries an
`errors` array (possibly empty — an empty JS array is truthy). -/
structure RespBody where
  errors : Option (List ErrObj) := none
deriving Repr, DecidableEq

/-- The `response` field of an axios error: HTTP status and parsed body
(`none` models a falsy/absent body). -/
structure AxiosResponse where
  status : Nat
  data : Option RespBody
deriving Repr, DecidableEq

/-- The failure value caught by the response interceptor: `response` is
present iff the server answered with a non-2xx status; `request` is the
truthiness of the axios `request` field (the request was sent). -/
structure CaughtError where
  response : Option AxiosResponse
  request : Bool
deriving Repr, DecidableEq

/-- The normalizer's result: a fresh API error with status and body
attached, a fresh plain error, or the original caught value re-raised
unchanged. -/
inductive Outcome where
  | apiError (message : String) (status : Nat) (data : Option RespBody)
  | plainError (message : String)
  | rethrown (original : CaughtError)
deriving Repr, DecidableEq

/-- `err.detail || err.title` as rendered by `Array.prototype.join`
(`undefined` renders as the empty string). -/
def errText (e : ErrObj) : String :=
  match e.detail with
  | some d => if d = "" then e.title.getD "" else d
  | none => e.title.getD ""

/-- Embedding of `GeckoTerminal._handleRequestError`. -/
def handleRequestError (e : CaughtError) : Outcome :=
  match e.response with
  | some r =>
    let base := "GeckoTerminal API Error: " ++ toString r.status
    let message :=
      match r.data with
      | some b =>
        match b.errors with
        | some l => base ++ " - " ++ String.intercalate ", " (l.map errText)
        | none => base
      | none => base
    .apiError message r.status r.data
  | none =>
    if e.request then .plainError "No response received from GeckoTerminal API"
    else .rethrown e

/-! ## Parameter-building helpers -/

/-- Embedding of `GeckoTerminal._buildIncludeParams`: comma-join a
non-empty list, `undefined` for an empty or absent list. -/
def buildIncludeParams (inc : List String) : Option String :=
  if inc.isEmpty then none else some (String.intercalate "," inc)

/-- The `include` query entry built from an include list. -/
def includeParam (inc : List String) : String × Option ParamVal :=
  ("include", (buildIncludeParams inc).map ParamVal.str)

/-- The `{ page = 1, page_size = 100 }` destructuring shared by all
paginated endpoint methods. -/
def paginationParams (page page_size : Option Int) : QueryParams :=
  [("page", some (.int (page.getD 1))), ("page_size", some (.int (page_size.getD 100)))]

/-! ## Endpoint request builders -/

/-- The `RequestSpec` of a single-pool fetch (`getPool`). -/
def poolRequest (network poolAddress : String) (inc : List String) : RequestSpec :=
  ⟨"/networks/" ++ network ++ "/pools/" ++ poolAddress, [includeParam inc]⟩

/-- The `RequestSpec` of a single-token fetch (`getToken`). -/
def tokenRequest (network tokenAddress : String) (inc : List String) : RequestSpec :=
  ⟨"/networks/" ++ network ++ "/tokens/" ++ tokenAddress, [includeParam inc]⟩

/-- `getNetworks`: no validation, paginated. -/
def getNetworksReq (page page_size : Option Int) : RequestSpec :=
  ⟨"/networks", paginationParams page page_size⟩

/-- `getDexes`: requires a network, paginated. -/
def getDexesReq (network : String) (page page_size : Option Int) :
    Except String RequestSpec :=
  if network = "" then .error "Network parameter is required"
  else .ok ⟨"/networks/" ++ network ++ "/dexes", paginationParams page page_size⟩

/-- `getTopPools`: requires a network; the path depends on the truthiness
of the optional `dex`. -/
def getTopPoolsReq (network : String) (dex : Option String) (inc : List String)
    (page page_size : Option Int) : Except String RequestSpec :=
  if network = "" then .error "Network parameter is required"
  else
    let path :=
      match jsStrOpt dex with
      | some d => "/networks/" ++ network ++ "/dexes/" ++ d ++ "/pools"
      | none => "/networks/" ++ network ++ "/pools"
    .ok ⟨path, paginationParams page page_size ++ [includeParam inc]⟩

/-- `getNewPools`: no validation; the path depends on the truthiness of
the optional `network`. -/
def getNewPoolsReq (network : Option String) (inc : List String)
    (page page_size : Option Int) : RequestSpec :=
  let path :=
    match jsStrOpt network with
    | some n => "/networks/" ++ n ++ "/new_pools"
    | none => "/networks/new_pools"
  ⟨path, paginationParams page page_size ++ [includeParam inc]⟩

/-- `getTrendingPools`: no validation, paginated. -/
def getTrendingPoolsReq (inc : List String) (page page_size : Option Int) :
    RequestSpec :=
  ⟨"/networks/trending_pools", paginationParams page page_size ++ [includeParam inc]⟩

/-- `getTrendingPoolsByNetwork`: requires a network, paginated. -/
def getTrendingPoolsByNetworkReq (network : String) (inc : List String)
    (page page_size : Option Int) : Except String RequestSpec :=
  if network = "" then .error "Network parameter is required"
  else .ok ⟨"/networks/" ++ network ++ "/trending_pools",
    paginationParams page page_size ++ [includeParam inc]⟩

/-- `searchPools`: requires a query; path depends on the truthiness of the
optional `network`. -/
def searchPoolsReq (query : String) (network : Option String) (inc : List String)
    (page page_size : Option Int) : Except String RequestSpec :=
  if query = "" then .error "Search query parameter is required"
  else
    let path :=
      match jsStrOpt network with
      | some n => "/networks/" ++ n ++ "/search/pools"
      | none => "/search/pools"
    .ok ⟨path, ("query", some (.str query)) ::
      (paginationParams page page_size ++ [includeParam inc])⟩

/-- `getTrades`: the two optional parameters flow into the query unchanged
(as `undefined` when absent). -/
def getTradesReq (network poolAddress : String)
    (trade_volume_in_usd_greater_than : Option Int) (cursor : Option String) :
    Except String RequestSpec :=
  if network = "" then .error "Network parameter is required"
  else if poolAddress = "" then .error "Pool address parameter is required"
  else .ok ⟨"/networks/" ++ network ++ "/pools/" ++ poolAddress ++ "/trades",
    [("trade_volume_in_usd_greater_than", trade_volume_in_usd_greater_than.map ParamVal.int),
     ("cursor", cursor.map ParamVal.str)]⟩

/-! ## OHLCV (`getPoolOhlcv`) -/

/-- The options object of `getPoolOhlcv`; absent fields are `none` and are
defaulted by destructuring inside the method. -/
structure OhlcvParams where
  timeframe : Option String := none
  aggregate : Option Int := none
  before_timestamp : Option Int := none
  limit : Option Int := none
  currency : Option String := none
  token : Option String := none
deriving Repr, DecidableEq

/-- The fixed allowed set of OHLCV timeframes. -/
def validTimeframes : List String := ["minute", "hour", "day", "week", "month"]

/-- The fixed allowed set of OHLCV currencies. -/
def validCurrencies : List String := ["usd", "token"]

/-- Embedding of `getPoolOhlcv`'s synchronous part: argument validation
followed by the single HTTP request the method actually issues.  In the
source the method, after validating, calls `this.getPool(network,
poolAddress)` — a GET of `/networks/{network}/pools/{poolAddress}` with no
OHLCV query parameters — and then fabricates the candle list locally from
the pool response, `Date.now()` and `Math.random()`; no request to the
`/ohlcv` route is ever made.  The nondeterministic candle values are not
modelled; the deterministic timestamp skeleton is `mockTimestamps`. -/
def getPoolOhlcvPlan (network poolAddress : String) (opts : OhlcvParams) :
    Except String RequestSpec :=
  if network = "" then .error "Network parameter is required"
  else if poolAddress = "" then .error "Pool address parameter is required"
  else
    let timeframe := opts.timeframe.getD "day"
    let limit := opts.limit.getD 100
    let currency := opts.currency.getD "usd"
    if timeframe ∉ validTimeframes then
      .error ("Invalid timeframe: " ++ timeframe ++ ". Must be one of: " ++
        String.intercalate ", " validTimeframes)
    else if currency ∉ validCurrencies then
      .error ("Invalid currency: " ++ currency ++ ". Must be one of: " ++
        String.intercalate ", " validCurrencies)
    else if limit > 1000 then .error "Maximum limit is 1000"
    else .ok (poolRequest network poolAddress [])

/-- The `timeframeInSeconds` table of `getPoolOhlcv` (used only by the
local mock-data generator). -/
def timeframeInSeconds (tf : String) : Nat :=
  if tf = "minute" then 60
  else if tf = "hour" then 3600
  else if tf = "day" then 86400
  else if tf = "week" then 604800
  else if tf = "month" then 2592000
  else 0

/-- The timestamps of the locally fabricated candles: `now - i * interval`
for `i < limit`, computed by the mock loop of `getPoolOhlcv`. -/
def mockTimestamps (now interval : Int) (limit : Nat) : List Int :=
  (List.range limit).map (fun i => now - i * interval)

/-! ## Client construction (`constructor`) -/

/-- The module-level base-URL constant. -/
def GECKOTERMINAL_BASE_URL : String := "https://api.geckoterminal.com/api"

/-- The constructor's options object. -/
structure GtOptions where
  baseUrl : Option String := none
  apiVersion : Option String := none
  headers : List (String × String) := []
deriving Repr, DecidableEq

/-- The resolved client configuration held by one instance. -/
structure ClientConfig where
  baseUrl : String
  apiVersion : String
  headers : List (String × String)
deriving Repr, DecidableEq

/-- The default headers installed by the constructor; `version` is the
package version read from `package.json`. -/
def defaultHeaders (version : String) : List (String × String) :=
  [("Accept", "application/json"), ("User-Agent", "GeckoTerminal-Node/" ++ version)]

/-- Object-spread merge `{ ...base, ...extra }` restricted to lookup
semantics: a key found in `extra` wins, otherwise `base`'s value is
kept. -/
def mergeHeaders (base extra : List (String × String)) : List (String × String) :=
  extra ++ base.filter (fun p => (extra.lookup p.1).isNone)

/-- Embedding of the constructor: `||`-defaulting of `baseUrl` and
`apiVersion`, and default headers merged under caller-supplied ones. -/
def mkClient (version : String) (o : GtOptions) : ClientConfig :=
  ⟨jsOrStr o.baseUrl GECKOTERMINAL_BASE_URL,
   jsOrStr o.apiVersion "v2",
   mergeHeaders (defaultHeaders version) o.headers⟩

/-- The full URL of an outbound request: the axios instance's `baseURL` is
the template `{baseUrl}/{apiVersion}` and endpoint paths are appended. -/
def requestUrl (c : ClientConfig) (path : String) : String :=
  c.baseUrl ++ "/" ++ c.apiVersion ++ path

/-! ## Fan-out model (`getPools`, `getPrices`)

The transport is an oracle `RequestSpec → Except Outcome (ApiResp _)`:
it returns the parsed envelope on success and the normalized failure
produced by `_handleRequestError` otherwise.  Each endpoint run returns
the list of HTTP requests it issued together with its outcome. -/

/-- An error surfaced to the caller of an endpoint method: a plain
pre-flight validation error (it carries no status), or a normalized
transport failure. -/
inductive GtError where
  | validation (message : String)
  | normalized (o : Outcome)
deriving Repr, DecidableEq

/-- The `{data, included?}` envelope returned by the remote API; the items
of `included` are opaque here. -/
structure ApiResp (α : Type) where
  data : α
  included : Option (List String) := none
deriving Repr

/-- `Promise.all`: all promises are created up front; the aggregate
resolves with the results in order, or rejects with a failing sub-call's
error (in this deterministic model, the first in input order). -/
def promiseAll {ε α : Type} : List (Except ε α) → Except ε (List α)
  | [] => .ok []
  | .error e :: _ => .error e
  | .ok a :: xs => (promiseAll xs).map (a :: ·)

/-- Embedding of `getPool`: validation, then one GET of the single-pool
route.  Returns the issued requests and the outcome. -/
def getPoolRun (network poolAddress : String) (inc : List String)
    (oracle : RequestSpec → Except Outcome (ApiResp String)) :
    List RequestSpec × Except GtError (ApiResp String) :=
  if network = "" then ([], .error (.validation "Network parameter is required"))
  else if poolAddress = "" then
    ([], .error (.validation "Pool address parameter is required"))
  else
    let req := poolRequest network poolAddress inc
    match oracle req with
    | .ok r => ([req], .ok r)
    | .error o => ([req], .error (.normalized o))

/-- Embedding of `getPools`: validation, then one `getPool` sub-call per
address, `Promise.all`, and aggregation of the results.  The
`poolAddresses` argument is `none` when the caller passes a missing or
non-array value (both fail the same source check). -/
def getPoolsRun (network : String) (poolAddresses : Option (List String))
    (inc : List String)
    (oracle : RequestSpec → Except Outcome (ApiResp String)) :
    List RequestSpec × Except GtError (ApiResp (List String)) :=
  if network = "" then ([], .error (.validation "Network parameter is required"))
  else
    match poolAddresses with
    | none => ([], .error (.validation "Pool addresses parameter is required and must be an array"))
    | some addrs =>
      if addrs.isEmpty then
        ([], .error (.validation "Pool addresses parameter is required and must be an array"))
      else
        let subs := addrs.map (fun a => getPoolRun network a inc oracle)
        let reqs := (subs.map Prod.fst).flatten
        match promiseAll (subs.map Prod.snd) with
        | .error e => (reqs, .error e)
        | .ok rs =>
          (reqs, .ok ⟨rs.map (·.data), some ((rs.head?.bind (·.included)).getD [])⟩)

/-- The token payload fields `getPrices` reads from a `getToken` result. -/
structure TokenData where
  id : String
  address : String
  price_usd : Option String := none
  price_24h_change_percentage : Option String := none
deriving Repr, DecidableEq

/-- One element of `getPrices`' result, as assembled locally from a token
result (source: the `results.map` body of `getPrices`). -/
structure PriceItem where
  id : String
  type : String
  address : String
  price_usd : String
  price_24h_change_percentage : String
deriving Repr, DecidableEq

/-- The price item built from one token payload; `|| '0'` falls back on a
falsy (absent or empty) price string. -/
def priceOf (t : TokenData) : PriceItem :=
  ⟨t.id, "token_price", t.address,
   jsOrStr t.price_usd "0", jsOrStr t.price_24h_change_percentage "0"⟩

/-- Embedding of `getToken`: validation, then one GET of the single-token
route. -/
def getTokenRun (network tokenAddress : String) (inc : List String)
    (oracle : RequestSpec → Except Outcome (ApiResp TokenData)) :
    List RequestSpec × Except GtError (ApiResp TokenData) :=
  if network = "" then ([], .error (.validation "Network parameter is required"))
  else if tokenAddress = "" then
    ([], .error (.validation "Token address parameter is required"))
  else
    let req := tokenRequest network tokenAddress inc
    match oracle req with
    | .ok r => ([req], .ok r)
    | .error o => ([req], .error (.normalized o))

/-- Embedding of `getPrices`: validation (including the 30-address cap),
then one `getToken` sub-call per address, `Promise.all`, and local
assembly of the price items.  The `tokenAddresses` argument is `none` when
the caller passes a missing or non-array value. -/
def getPricesRun (network : String) (tokenAddresses : Option (List String))
    (oracle : RequestSpec → Except Outcome (ApiResp TokenData)) :
    List RequestSpec × Except GtError (ApiResp (List PriceItem)) :=
  if network = "" then ([], .error (.validation "Network parameter is required"))
  else
    match tokenAddresses with
    | none => ([], .error (.validation "Token addresses parameter is required and must be an array"))
    | some addrs =>
      if addrs.isEmpty then
        ([], .error (.validation "Token addresses parameter is required and must be an array"))
      else if addrs.length > 30 then
        ([], .error (.validation "Maximum of 30 token addresses allowed"))
      else
        let subs := addrs.map (fun a => getTokenRun network a [] oracle)
        let reqs := (subs.map Prod.fst).flatten
        match promiseAll (subs.map Prod.snd) with
        | .error e => (reqs, .error e)
        | .ok rs => (reqs, .ok ⟨rs.map (fun r => priceOf r.data), none⟩)

/-! ## Helper lemmas -/

theorem promiseAll_map_ok {ε α β : Type} (g : β → Except ε α) (f : β → α)
    (l : List β) (h : ∀ b ∈ l, g b = .ok (f b)) :
    promiseAll (l.map g) = .ok (l.map f) := by
  induction l with
  | nil => rfl
  | cons a t ih =>
    have ha := h a (List.mem_cons_self a t)
    have ht := ih (fun b hb => h b (List.mem_cons_of_mem _ hb))
    simp [promiseAll, ha, ht, Except.map]

theorem promiseAll_map_error {ε α β : Type} (g : β → Except ε α) :
    ∀ (l : List β) (i : Nat) (hi : i < l.length) (e : ε),
      g (l.get ⟨i, hi⟩) = .error e →
      (∀ j (hj : j < l.length), j < i → ∃ b, g (l.get ⟨j, hj⟩) = .ok b) →
      promiseAll (l.map g) = .error e := by
  intro l
  induction l with
  | nil => intro i hi; simp at hi
  | cons a t ih =>
    intro i hi e hget hok
    cases i with
    | zero =>
      simp only [List.get] at hget
      simp [promiseAll, hget]
    | succ k =>
      obtain ⟨b, hb⟩ := hok 0 (by simp) (Nat.succ_pos k)
      simp only [List.get] at hb hget
      have ht : promiseAll (t.map g) = .error e := by
        refine ih k (by simpa using hi) e hget ?_
        intro j hj hji
        have := hok (j + 1) (by simpa using Nat.succ_lt_succ hj) (Nat.succ_lt_succ hji)
        simpa [List.get] using this
      simp [promiseAll, hb, ht, Except.map]

theorem lookup_append_of_some {α β : Type} [BEq α] (l₁ l₂ : List (α × β)) (k : α)
    (v : β) (h : l₁.lookup k = some v) : (l₁ ++ l₂).lookup k = some v := by
  induction l₁ with
  | nil => simp [List.lookup] at h
  | cons p t ih =>
    rcases p with ⟨a, b⟩
    by_cases hk : (k == a) = true
    · simp_all [List.lookup]
    · simp only [Bool.not_eq_true] at hk
      simp_all [List.lookup]

theorem lookup_append_of_none {α β : Type} [BEq α] (l₁ l₂ : List (α × β)) (k : α)
    (h : l₁.lookup k = none) : (l₁ ++ l₂).lookup k = l₂.lookup k := by
  induction l₁ with
  | nil => simp
  | cons p t ih =>
    rcases p with ⟨a, b⟩
    by_cases hk : (k == a) = true
    · simp_all [List.lookup]
    · simp only [Bool.not_eq_true] at hk
      simp_all [List.lookup]

/-- Shared success shape of the `getPools` fan-out: when every per-address
`getPool` sub-call succeeds with result `f a`, the aggregate succeeds with
the data in input order and the first sub-call's `included`. -/
theorem getPoolsRun_ok_aux (network : String) (hn : network ≠ "")
    (addrs : List String) (ha : addrs ≠ []) (inc : List String)
    (oracle : RequestSpec → Except Outcome (ApiResp String))
    (f : String → ApiResp String)
    (hall : ∀ a ∈ addrs,
      getPoolRun network a inc oracle = ([poolRequest network a inc], .ok (f a))) :
    (getPoolsRun network (some addrs) inc oracle).2 =
      .ok ⟨addrs.map (fun a => (f a).data),
           some (((addrs.head?.map f).bind (·.included)).getD [])⟩ := by
  have hall' : ∀ a ∈ addrs, (fun x => (getPoolRun network x inc oracle).2) a = .ok (f a) := by
    intro a haa
    simp [hall a haa]
  have hmap : (addrs.map (fun a => getPoolRun network a inc oracle)).map Prod.snd
      = addrs.map (fun a => (getPoolRun network a inc oracle).2) := by
    simp
  have hp : promiseAll (addrs.map (fun a => (getPoolRun network a inc oracle).2))
      = .ok (addrs.map f) := promiseAll_map_ok _ f addrs hall'
  have hne : addrs.isEmpty = false := by
    cases addrs with
    | nil => exact absurd rfl ha
    | cons a t => rfl
  simp only [getPoolsRun, hn, if_false, hne, Bool.false_eq_true, hmap, hp]
  simp [List.head?_map]

/-- The pagination entries every paginated endpoint method produces when
the caller omits `page` and `page_size`. -/
def hasDefaultPaging (r : RequestSpec) : Prop :=
  r.params.lookup "page" = some (some (.int 1)) ∧
  r.params.lookup "page_size" = some (some (.int 100))

/-! ## Claim theorems -/

/-- C2: for a failure where the server responded with a non-2xx status,
the normalizer produces exactly one error whose message is
`"GeckoTerminal API Error: {status} - {joined details}"` when the body
carries a list of error objects (joining each object's `detail`, falling
back to `title`, with `", "`), and `"GeckoTerminal API Error: {status}"`
when it does not, with the status and body attached to the error. -/
theorem handleRequestError_server_status
    (status : Nat) (data : Option RespBody) (req : Bool) :
    (∀ b l, data = some b → b.errors = some l →
      handleRequestError ⟨some ⟨status, data⟩, req⟩ =
        .apiError ("GeckoTerminal API Error: " ++ toString status ++ " - " ++
          String.intercalate ", " (l.map errText)) status data) ∧
    ((data = none ∨ ∃ b, data = some b ∧ b.errors = none) →
      handleRequestError ⟨some ⟨status, data⟩, req⟩ =
        .apiError ("GeckoTerminal API Error: " ++ toString status) status data) := by
  constructor
  · rintro b l rfl hl
    simp [handleRequestError, hl]
  · rintro (rfl | ⟨b, rfl, hb⟩)
    · simp [handleRequestError]
    · simp [handleRequestError, hb]

/-- Witness for C2: status 404 with body `{errors: [{detail: "not found"}]}`
yields the message `"GeckoTerminal API Error: 404 - not found"` with
status 404 and the body attached. -/
theorem handleRequestError_server_status_witness :
    handleRequestError ⟨some ⟨404, some ⟨some [⟨some "not found", none⟩]⟩⟩, false⟩ =
      .apiError "GeckoTerminal API Error: 404 - not found" 404
        (some ⟨some [⟨some "not found", none⟩]⟩) := by
  rw [(handleRequestError_server_status 404 (some ⟨some [⟨some "not found", none⟩]⟩)
    false).1 ⟨some [⟨some "not found", none⟩]⟩ [⟨some "not found", none⟩] rfl rfl]
  rfl

/-- C3: the error normalizer is a total three-way classification (the
`match`/`if` selects exactly one case for every caught failure): a server
response yields an API error carrying that response's status and body; a
sent-but-unanswered request yields a fresh plain error whose message is
exactly `"No response received from GeckoTerminal API"` with no status and
no body; otherwise the original caught value is re-raised unchanged. -/
theorem handleRequestError_total_classification (e : CaughtError) :
    match e.response with
    | some r => ∃ m, handleRequestError e = .apiError m r.status r.data
    | none =>
      if e.request then
        handleRequestError e = .plainError "No response received from GeckoTerminal API"
      else
        handleRequestError e = .rethrown e := by
  rcases e with ⟨resp, req⟩
  cases resp with
  | some r => exact ⟨_, rfl⟩
  | none => cases req <;> simp [handleRequestError]

/-- C4: a query key whose value is `undefined` is never serialized (every
serialized pair comes from a defined entry); the `include` helper joins a
non-empty list with commas and yields `undefined` for an empty list, so an
include-capable request serializes `include` to the comma-joined list when
the list is non-empty and omits it entirely when the list is empty or
omitted (and `getTrades` omits an absent `cursor` the same way). -/
theorem undefined_params_omitted :
    (∀ (qp : QueryParams) (k v : String),
      (k, v) ∈ serializeQuery qp → ∃ pv, (k, some pv) ∈ qp ∧ v = renderParam pv) ∧
    (∀ (qp : QueryParams) (k : String), (∀ pv, (k, some pv) ∉ qp) →
      ∀ v, (k, v) ∉ serializeQuery qp) ∧
    buildIncludeParams [] = none ∧
    (∀ inc : List String, inc ≠ [] →
      buildIncludeParams inc = some (String.intercalate "," inc)) ∧
    (∀ network pool : String, serializeQuery (poolRequest network pool []).params = []) ∧
    (∀ (network pool : String) (inc : List String), inc ≠ [] →
      serializeQuery (poolRequest network pool inc).params =
        [("include", String.intercalate "," inc)]) ∧
    (∀ network pool : String, network ≠ "" → pool ≠ "" →
      ∃ r, getTradesReq network pool none none = .ok r ∧
        serializeQuery r.params = []) := by
  have hmem : ∀ (qp : QueryParams) (k v : String),
      (k, v) ∈ serializeQuery qp → ∃ pv, (k, some pv) ∈ qp ∧ v = renderParam pv := by
    intro qp k v h
    rw [serializeQuery, List.mem_filterMap] at h
    obtain ⟨⟨k', ov⟩, hmem', heq⟩ := h
    cases ov with
    | none => simp at heq
    | some pv =>
      rw [Option.map_some'] at heq
      have hk : k' = k := congrArg Prod.fst (Option.some.inj heq)
      have hv : v = renderParam pv := (congrArg Prod.snd (Option.some.inj heq)).symm
      subst hk
      exact ⟨pv, hmem', hv⟩
  refine ⟨hmem, ?_, rfl, ?_, ?_, ?_, ?_⟩
  · intro qp k hk v hv
    obtain ⟨pv, hpv, _⟩ := hmem qp k v hv
    exact hk pv hpv
  · intro inc hne
    have : inc.isEmpty = false := by
      cases inc with
      | nil => exact absurd rfl hne
      | cons a t => rfl
    simp [buildIncludeParams, this]
  · intro network pool
    rfl
  · intro network pool inc hne
    have : inc.isEmpty = false := by
      cases inc with
      | nil => exact absurd rfl hne
      | cons a t => rfl
    simp [poolRequest, includeParam, buildIncludeParams, this, serializeQuery, renderParam]
  · intro network pool hn hp
    unfold getTradesReq
    rw [if_neg hn, if_neg hp]
    exact ⟨_, rfl, rfl⟩

/-- Witness for C4: a two-element include list serializes to its
comma-join, and the empty include list produces no serialized key. -/
theorem undefined_params_omitted_witness :
    serializeQuery (poolRequest "eth" "0xp" ["base_token", "dex"]).params =
      [("include", "base_token,dex")] ∧
    serializeQuery (poolRequest "eth" "0xp" []).params = [] := by
  constructor
  · rw [undefined_params_omitted.2.2.2.2.2.1 "eth" "0xp" ["base_token", "dex"]
      (by simp)]
    rfl
  · exact undefined_params_omitted.2.2.2.2.1 "eth" "0xp"

/-- C5: every paginated endpoint method (`getNetworks`, `getDexes`,
`getTopPools`, `getNewPools`, `getTrendingPools`,
`getTrendingPoolsByNetwork`, `searchPools`) defaults to `page = 1` and
`page_size = 100` when the caller omits both. -/
theorem paginated_defaults (network query : String) (dex net2 : Option String)
    (inc : List String) (hn : network ≠ "") (hq : query ≠ "") :
    hasDefaultPaging (getNetworksReq none none) ∧
    (∃ r, getDexesReq network none none = .ok r ∧ hasDefaultPaging r) ∧
    (∃ r, getTopPoolsReq network dex inc none none = .ok r ∧ hasDefaultPaging r) ∧
    hasDefaultPaging (getNewPoolsReq net2 inc none none) ∧
    hasDefaultPaging (getTrendingPoolsReq inc none none) ∧
    (∃ r, getTrendingPoolsByNetworkReq network inc none none = .ok r ∧
      hasDefaultPaging r) ∧
    (∃ r, searchPoolsReq query net2 inc none none = .ok r ∧ hasDefaultPaging r) := by
  refine ⟨⟨rfl, rfl⟩, ?_, ?_, ⟨rfl, rfl⟩, ⟨rfl, rfl⟩, ?_, ?_⟩
  · unfold getDexesReq
    rw [if_neg hn]
    exact ⟨_, rfl, rfl, rfl⟩
  · unfold getTopPoolsReq
    rw [if_neg hn]
    exact ⟨_, rfl, rfl, rfl⟩
  · unfold getTrendingPoolsByNetworkReq
    rw [if_neg hn]
    exact ⟨_, rfl, rfl, rfl⟩
  · unfold searchPoolsReq
    rw [if_neg hq]
    exact ⟨_, rfl, rfl, rfl⟩

/-- Witness for C5: `getNetworks` with both pagination fields omitted
carries `page = 1` and `page_size = 100`. -/
theorem paginated_defaults_witness :
    hasDefaultPaging (getNetworksReq none none) :=
  (paginated_defaults "eth" "ETH" none none [] (by decide) (by decide)).1

/-- C6: `getPrices` fails synchronously with a plain validation error
(the `GtError.validation` constructor carries only a message and no
status) when the token-address argument is missing or not an array
(`none`), empty, or longer than 30 entries; the result is the same for
every transport oracle and the issued-request list is empty, so no network
call is attempted. -/
theorem getPrices_preflight (network : String) (hn : network ≠ "")
    (oracle : RequestSpec → Except Outcome (ApiResp TokenData)) :
    getPricesRun network none oracle =
      ([], .error (.validation "Token addresses parameter is required and must be an array")) ∧
    getPricesRun network (some []) oracle =
      ([], .error (.validation "Token addresses parameter is required and must be an array")) ∧
    (∀ addrs : List String, addrs.length > 30 →
      getPricesRun network (some addrs) oracle =
        ([], .error (.validation "Maximum of 30 token addresses allowed"))) := by
  refine ⟨?_, ?_, ?_⟩
  · simp [getPricesRun, hn]
  · simp [getPricesRun, hn]
  · intro addrs hlen
    have hne : addrs.isEmpty = false := by
      cases addrs with
      | nil => simp at hlen
      | cons a t => rfl
    simp [getPricesRun, hn, hne, hlen]

/-- Witness for C6: 31 token addresses fail pre-flight with the cap error
and an empty request list, for a concrete oracle. -/
theorem getPrices_preflight_witness :
    getPricesRun "eth" (some (List.replicate 31 "t"))
        (fun _ => .error (.plainError "offline")) =
      ([], .error (.validation "Maximum of 30 token addresses allowed")) :=
  (getPrices_preflight "eth" (by decide) _).2.2 (List.replicate 31 "t") (by simp)

/-- C7: `getPoolOhlcv` fails synchronously (before issuing its HTTP
request) with a message naming the invalid value and the allowed set when
the effective timeframe is outside {minute, hour, day, week, month} or the
effective currency is outside {usd, token}, and with the bound-naming
message when the effective limit exceeds 1000; with all three valid the
method proceeds to issue its request. -/
theorem getPoolOhlcv_preflight (network pool : String) (opts : OhlcvParams)
    (hn : network ≠ "") (hp : pool ≠ "") :
    (opts.timeframe.getD "day" ∉ validTimeframes →
      getPoolOhlcvPlan network pool opts =
        .error ("Invalid timeframe: " ++ opts.timeframe.getD "day" ++
          ". Must be one of: minute, hour, day, week, month")) ∧
    (opts.timeframe.getD "day" ∈ validTimeframes →
      opts.currency.getD "usd" ∉ validCurrencies →
      getPoolOhlcvPlan network pool opts =
        .error ("Invalid currency: " ++ opts.currency.getD "usd" ++
          ". Must be one of: usd, token")) ∧
    (opts.timeframe.getD "day" ∈ validTimeframes →
      opts.currency.getD "usd" ∈ validCurrencies →
      opts.limit.getD 100 > 1000 →
      getPoolOhlcvPlan network pool opts = .error "Maximum limit is 1000") ∧
    (opts.timeframe.getD "day" ∈ validTimeframes →
      opts.currency.getD "usd" ∈ validCurrencies →
      opts.limit.getD 100 ≤ 1000 →
      getPoolOhlcvPlan network pool opts = .ok (poolRequest network pool [])) := by
  refine ⟨?_, ?_, ?_, ?_⟩
  · intro htf
    simp only [getPoolOhlcvPlan]
    rw [if_neg hn, if_neg hp, if_pos htf, String.append_assoc]
    rfl
  · intro htf hcur
    simp only [getPoolOhlcvPlan]
    rw [if_neg hn, if_neg hp, if_neg (not_not_intro htf), if_pos hcur,
      String.append_assoc]
    rfl
  · intro htf hcur hlim
    simp only [getPoolOhlcvPlan]
    rw [if_neg hn, if_neg hp, if_neg (not_not_intro htf), if_neg (not_not_intro hcur),
      if_pos hlim]
  · intro htf hcur hlim
    simp only [getPoolOhlcvPlan]
    rw [if_neg hn, if_neg hp, if_neg (not_not_intro htf), if_neg (not_not_intro hcur),
      if_neg (by omega : ¬ opts.limit.getD 100 > 1000)]

/-- Witness for C7: an invalid timeframe value fails with the
value-and-set-naming message, and a fully valid call proceeds to a
request. -/
theorem getPoolOhlcv_preflight_witness :
    getPoolOhlcvPlan "eth" "0xp" ⟨some "year", none, none, none, none, none⟩ =
      .error "Invalid timeframe: year. Must be one of: minute, hour, day, week, month" ∧
    getPoolOhlcvPlan "eth" "0xp" ⟨some "day", some 1, none, some 100, some "usd", some "base"⟩ =
      .ok (poolRequest "eth" "0xp" []) := by
  constructor
  · rw [(getPoolOhlcv_preflight "eth" "0xp" ⟨some "year", none, none, none, none, none⟩
      (by decide) (by decide)).1 (by decide)]
    rfl
  · exact (getPoolOhlcv_preflight "eth" "0xp"
      ⟨some "day", some 1, none, some 100, some "usd", some "base"⟩
      (by decide) (by decide)).2.2.2 (by decide) (by decide) (by decide)

/-- C1 (code bug): evaluated at a valid call, `getPoolOhlcv` in
`src/geckoterminal.ts` issues its single HTTP request to the single-pool
route `/networks/eth/pools/0xpool` — not to the documented
`/networks/eth/pools/0xpool/ohlcv` route — and sends none of the OHLCV
options (timeframe, aggregate, before_timestamp, limit, currency, token)
as query parameters; the candle list it returns is fabricated locally
(see `mockTimestamps`) instead of being the `/ohlcv` endpoint's
response. -/
theorem getPoolOhlcv_requests_pool_route_not_ohlcv :
    getPoolOhlcvPlan "eth" "0xpool"
        ⟨some "day", some 1, none, some 100, some "usd", some "base"⟩ =
      .ok (poolRequest "eth" "0xpool" []) ∧
    (poolRequest "eth" "0xpool" []).path = "/networks/eth/pools/0xpool" ∧
    (poolRequest "eth" "0xpool" []).path ≠ "/networks/eth/pools/0xpool/ohlcv" ∧
    serializeQuery (poolRequest "eth" "0xpool" []).params = [] := by
  refine ⟨rfl, rfl, by decide, rfl⟩

/-! ## Further helper lemmas for the fan-out claims -/

theorem isEmpty_false_of_ne_nil {α : Type} {l : List α} (h : l ≠ []) :
    l.isEmpty = false := by
  cases l with
  | nil => exact absurd rfl h
  | cons a t => rfl

theorem map_congr_mem {α β : Type} {f g : α → β} :
    ∀ l : List α, (∀ a ∈ l, f a = g a) → l.map f = l.map g := by
  intro l h
  induction l with
  | nil => rfl
  | cons a t ih => simp [h a (by simp), ih (fun b hb => h b (by simp [hb]))]

theorem flatten_map_singleton {α β : Type} (f : α → β) (l : List α) :
    (l.map (fun a => [f a])).flatten = l.map f := by
  induction l with
  | nil => rfl
  | cons a t ih => simp [ih]

theorem getPoolRun_fst (network a : String) (hn : network ≠ "") (hav : a ≠ "")
    (inc : List String) (oracle : RequestSpec → Except Outcome (ApiResp String)) :
    (getPoolRun network a inc oracle).1 = [poolRequest network a inc] := by
  simp only [getPoolRun, if_neg hn, if_neg hav]
  cases oracle (poolRequest network a inc) <;> rfl

theorem getTokenRun_fst (network a : String) (hn : network ≠ "") (hav : a ≠ "")
    (inc : List String) (oracle : RequestSpec → Except Outcome (ApiResp TokenData)) :
    (getTokenRun network a inc oracle).1 = [tokenRequest network a inc] := by
  simp only [getTokenRun, if_neg hn, if_neg hav]
  cases oracle (tokenRequest network a inc) <;> rfl

theorem getPoolsRun_fst (network : String) (hn : network ≠ "") (addrs : List String)
    (hne : addrs.isEmpty = false) (inc : List String)
    (oracle : RequestSpec → Except Outcome (ApiResp String)) :
    (getPoolsRun network (some addrs) inc oracle).1 =
      (addrs.map (fun a => (getPoolRun network a inc oracle).1)).flatten := by
  have hmap : (addrs.map (fun a => getPoolRun network a inc oracle)).map Prod.fst
      = addrs.map (fun a => (getPoolRun network a inc oracle).1) := by simp
  simp only [getPoolsRun, hn, if_false, hne, Bool.false_eq_true, hmap]
  split <;> simp [Function.comp_def]

theorem getPoolsRun_error_aux (network : String) (hn : network ≠ "")
    (addrs : List String) (hne : addrs.isEmpty = false) (inc : List String)
    (oracle : RequestSpec → Except Outcome (ApiResp String)) (e : GtError)
    (hp : promiseAll (addrs.map (fun a => (getPoolRun network a inc oracle).2)) =
      .error e) :
    (getPoolsRun network (some addrs) inc oracle).2 = .error e := by
  have hmap : (addrs.map (fun a => getPoolRun network a inc oracle)).map Prod.snd
      = addrs.map (fun a => (getPoolRun network a inc oracle).2) := by simp
  simp only [getPoolsRun, hn, if_false, hne, Bool.false_eq_true, hmap, hp]

theorem getPricesRun_fst (network : String) (hn : network ≠ "")
    (tokens : List String) (hne : tokens.isEmpty = false)
    (hlen : ¬ tokens.length > 30)
    (oracle : RequestSpec → Except Outcome (ApiResp TokenData)) :
    (getPricesRun network (some tokens) oracle).1 =
      (tokens.map (fun a => (getTokenRun network a [] oracle).1)).flatten := by
  have hmap : (tokens.map (fun a => getTokenRun network a [] oracle)).map Prod.snd
      = tokens.map (fun a => (getTokenRun network a [] oracle).2) := by simp
  simp only [getPricesRun, hn, if_false, hne, Bool.false_eq_true, hlen, hmap]
  split <;> simp [Function.comp_def]

theorem getPricesRun_ok_aux (network : String) (hn : network ≠ "")
    (tokens : List String) (ht : tokens ≠ []) (hlen : ¬ tokens.length > 30)
    (oracle : RequestSpec → Except Outcome (ApiResp TokenData))
    (g : String → ApiResp TokenData)
    (hall : ∀ a ∈ tokens,
      getTokenRun network a [] oracle = ([tokenRequest network a []], .ok (g a))) :
    (getPricesRun network (some tokens) oracle).2 =
      .ok ⟨tokens.map (fun a => priceOf (g a).data), none⟩ := by
  have hall' : ∀ a ∈ tokens,
      (fun x => (getTokenRun network x [] oracle).2) a = .ok (g a) := by
    intro a haa
    simp [hall a haa]
  have hmap : (tokens.map (fun a => getTokenRun network a [] oracle)).map Prod.snd
      = tokens.map (fun a => (getTokenRun network a [] oracle).2) := by simp
  have hp : promiseAll (tokens.map (fun a => (getTokenRun network a [] oracle).2))
      = .ok (tokens.map g) := promiseAll_map_ok _ g tokens hall'
  have hne := isEmpty_false_of_ne_nil ht
  simp only [getPricesRun, hn, if_false, hne, Bool.false_eq_true, hlen, hmap, hp]
  simp

theorem getPricesRun_error_aux (network : String) (hn : network ≠ "")
    (tokens : List String) (hne : tokens.isEmpty = false)
    (hlen : ¬ tokens.length > 30)
    (oracle : RequestSpec → Except Outcome (ApiResp TokenData)) (e : GtError)
    (hp : promiseAll (tokens.map (fun a => (getTokenRun network a [] oracle).2)) =
      .error e) :
    (getPricesRun network (some tokens) oracle).2 = .error e := by
  have hmap : (tokens.map (fun a => getTokenRun network a [] oracle)).map Prod.snd
      = tokens.map (fun a => (getTokenRun network a [] oracle).2) := by simp
  simp only [getPricesRun, hn, if_false, hne, Bool.false_eq_true, hlen, hmap, hp]

/-! ## Concrete oracles used by the closed witnesses -/

/-- A transport in which only the pool `B` fetch fails (the spec's
`[A, B]` example). -/
def oracleFailB : RequestSpec → Except Outcome (ApiResp String) :=
  fun r =>
    if r.path = "/networks/eth/pools/B" then
      .error (.apiError "GeckoTerminal API Error: 404" 404 none)
    else .ok ⟨"pool-A", none⟩

/-- A transport in which every token fetch succeeds. -/
def oracleTokOk : RequestSpec → Except Outcome (ApiResp TokenData) :=
  fun _ => .ok ⟨⟨"eth_0xt", "0xt", some "1.0", some "0.5"⟩, none⟩

/-- A transport in which pools `A` and `B` succeed with distinct
`included` lists. -/
def oracleIncl : RequestSpec → Except Outcome (ApiResp String) :=
  fun r =>
    if r.path = "/networks/eth/pools/A" then .ok ⟨"pool-A", some ["incA"]⟩
    else .ok ⟨"pool-B", some ["incB"]⟩

/-- C8: `getPools` and `getPrices` fan out one single-item sub-call per
input element (issuing exactly one HTTP request per element, in input
order), wait for all of them, and return the per-element data in the
caller's input order; if a sub-call fails while every earlier sub-call
succeeded, the aggregate fails with exactly that sub-call's error and
returns no partial results. -/
theorem fanout_order_and_failure (network : String) (hn : network ≠ "")
    (addrs : List String) (ha : addrs ≠ []) (inc : List String)
    (oracleP : RequestSpec → Except Outcome (ApiResp String))
    (tokens : List String) (ht : tokens ≠ []) (hlen : tokens.length ≤ 30)
    (oracleT : RequestSpec → Except Outcome (ApiResp TokenData)) :
    ((∀ a ∈ addrs, a ≠ "") →
      (getPoolsRun network (some addrs) inc oracleP).1 =
        addrs.map (fun a => poolRequest network a inc)) ∧
    (∀ f : String → ApiResp String,
      (∀ a ∈ addrs,
        getPoolRun network a inc oracleP = ([poolRequest network a inc], .ok (f a))) →
      (getPoolsRun network (some addrs) inc oracleP).2 =
        .ok ⟨addrs.map (fun a => (f a).data),
             some (((addrs.head?.map f).bind (·.included)).getD [])⟩) ∧
    (∀ (i : Nat) (hi : i < addrs.length) (e : GtError),
      (getPoolRun network (addrs.get ⟨i, hi⟩) inc oracleP).2 = .error e →
      (∀ (j : Nat) (hj : j < addrs.length), j < i →
        ∃ r, (getPoolRun network (addrs.get ⟨j, hj⟩) inc oracleP).2 = .ok r) →
      (getPoolsRun network (some addrs) inc oracleP).2 = .error e) ∧
    ((∀ a ∈ tokens, a ≠ "") →
      (getPricesRun network (some tokens) oracleT).1 =
        tokens.map (fun a => tokenRequest network a [])) ∧
    (∀ g : String → ApiResp TokenData,
      (∀ a ∈ tokens,
        getTokenRun network a [] oracleT = ([tokenRequest network a []], .ok (g a))) →
      (getPricesRun network (some tokens) oracleT).2 =
        .ok ⟨tokens.map (fun a => priceOf (g a).data), none⟩) ∧
    (∀ (i : Nat) (hi : i < tokens.length) (e : GtError),
      (getTokenRun network (tokens.get ⟨i, hi⟩) [] oracleT).2 = .error e →
      (∀ (j : Nat) (hj : j < tokens.length), j < i →
        ∃ r, (getTokenRun network (tokens.get ⟨j, hj⟩) [] oracleT).2 = .ok r) →
      (getPricesRun network (some tokens) oracleT).2 = .error e) := by
  have hneA := isEmpty_false_of_ne_nil ha
  have hneT := isEmpty_false_of_ne_nil ht
  have hlen' : ¬ tokens.length > 30 := by omega
  refine ⟨?_, ?_, ?_, ?_, ?_, ?_⟩
  · intro hvalid
    rw [getPoolsRun_fst network hn addrs hneA inc oracleP,
      map_congr_mem addrs (fun a haa =>
        getPoolRun_fst network a hn (hvalid a haa) inc oracleP),
      flatten_map_singleton]
  · intro f hall
    exact getPoolsRun_ok_aux network hn addrs ha inc oracleP f hall
  · intro i hi e hget hok
    refine getPoolsRun_error_aux network hn addrs hneA inc oracleP e ?_
    refine promiseAll_map_error (fun a => (getPoolRun network a inc oracleP).2)
      addrs i hi e hget ?_
    intro j hj hji
    exact hok j hj hji
  · intro hvalid
    rw [getPricesRun_fst network hn tokens hneT hlen' oracleT,
      map_congr_mem tokens (fun a haa =>
        getTokenRun_fst network a hn (hvalid a haa) [] oracleT),
      flatten_map_singleton]
  · intro g hall
    exact getPricesRun_ok_aux network hn tokens ht hlen' oracleT g hall
  · intro i hi e hget hok
    refine getPricesRun_error_aux network hn tokens hneT hlen' oracleT e ?_
    refine promiseAll_map_error (fun a => (getTokenRun network a [] oracleT).2)
      tokens i hi e hget ?_
    intro j hj hji
    exact hok j hj hji

/-- Witness for C8: the spec's `[A, B]` example — with pool `B`'s fetch
failing and `A`'s succeeding, the `getPools` aggregate fails with `B`'s
normalized error and returns no data for `A`. -/
theorem fanout_order_and_failure_witness :
    (getPoolsRun "eth" (some ["A", "B"]) [] oracleFailB).2 =
      .error (.normalized (.apiError "GeckoTerminal API Error: 404" 404 none)) := by
  refine (fanout_order_and_failure "eth" (by decide) ["A", "B"] (by decide) []
    oracleFailB ["T"] (by decide) (by decide) oracleTokOk).2.2.1 1 (by decide) _
    ?_ ?_
  · rfl
  · intro j hj hji
    have hj0 : j = 0 := by omega
    subst hj0
    exact ⟨_, rfl⟩

/-- C9: a client constructed with non-empty `baseUrl = X` and
`apiVersion = Y` produces every outbound request URL as `X/Y` followed by
the endpoint path; omitting them falls back to the production origin and
`"v2"`; the default `Accept` and library-identifying `User-Agent` headers
are merged under caller-supplied headers, with caller-supplied values
winning on conflict. -/
theorem client_config_url_and_headers (version X Y : String) (hX : X ≠ "")
    (hY : Y ≠ "") (hs : List (String × String)) (path : String) (o : GtOptions) :
    requestUrl (mkClient version ⟨some X, some Y, hs⟩) path = X ++ "/" ++ Y ++ path ∧
    (mkClient version ⟨none, none, hs⟩).baseUrl = GECKOTERMINAL_BASE_URL ∧
    (mkClient version ⟨none, none, hs⟩).apiVersion = "v2" ∧
    (∀ k v, o.headers.lookup k = some v →
      (mkClient version o).headers.lookup k = some v) ∧
    (o.headers.lookup "Accept" = none →
      (mkClient version o).headers.lookup "Accept" = some "application/json") ∧
    (o.headers.lookup "User-Agent" = none →
      (mkClient version o).headers.lookup "User-Agent" =
        some ("GeckoTerminal-Node/" ++ version)) := by
  refine ⟨?_, rfl, rfl, ?_, ?_, ?_⟩
  · simp only [mkClient, requestUrl, jsOrStr]
    rw [if_neg hX, if_neg hY]
  · intro k v hkv
    exact lookup_append_of_some _ _ _ _ hkv
  · intro hacc
    have h1 : (mkClient version o).headers.lookup "Accept"
        = ((defaultHeaders version).filter
            (fun p => (o.headers.lookup p.1).isNone)).lookup "Accept" := by
      simp only [mkClient, mergeHeaders]
      exact lookup_append_of_none _ _ _ hacc
    rw [h1]
    simp [defaultHeaders, List.filter, hacc, List.lookup]
  · intro hua
    have h1 : (mkClient version o).headers.lookup "User-Agent"
        = ((defaultHeaders version).filter
            (fun p => (o.headers.lookup p.1).isNone)).lookup "User-Agent" := by
      simp only [mkClient, mergeHeaders]
      exact lookup_append_of_none _ _ _ hua
    rw [h1]
    by_cases hacc : (o.headers.lookup "Accept").isNone
    · simp [defaultHeaders, List.filter, hacc, hua, List.lookup]
    · simp [defaultHeaders, List.filter, hacc, hua, List.lookup]

/-- Witness for C9: a concrete client with custom base URL and version
produces the expected full request URL. -/
theorem client_config_url_and_headers_witness :
    requestUrl (mkClient "1.0.0" ⟨some "https://example.test", some "v9",
        [("Accept", "text/plain")]⟩) "/networks" =
      "https://example.test/v9/networks" := by
  rw [(client_config_url_and_headers "1.0.0" "https://example.test" "v9" (by decide)
    (by decide) [("Accept", "text/plain")] "/networks"
    ⟨some "https://example.test", some "v9", [("Accept", "text/plain")]⟩).1]
  rfl

/-- C10: when `getPools` succeeds, the aggregate's `included` is taken
solely from the first sub-call's result (defaulting to the empty list when
absent); the `included` lists of all later sub-calls do not appear, since
the aggregate is fully determined by the first result's `included` and the
per-element `data`. -/
theorem getPools_included_from_first (network : String) (hn : network ≠ "")
    (a : String) (rest inc : List String)
    (oracle : RequestSpec → Except Outcome (ApiResp String))
    (f : String → ApiResp String)
    (hall : ∀ x ∈ a :: rest,
      getPoolRun network x inc oracle = ([poolRequest network x inc], .ok (f x))) :
    (getPoolsRun network (some (a :: rest)) inc oracle).2 =
      .ok ⟨(a :: rest).map (fun x => (f x).data), some ((f a).included.getD [])⟩ := by
  have h := getPoolsRun_ok_aux network hn (a :: rest) (by simp) inc oracle f hall
  simpa using h

/-- Witness for C10: two pools whose results carry distinct `included`
lists — the aggregate keeps only the first's. -/
theorem getPools_included_from_first_witness :
    (getPoolsRun "eth" (some ["A", "B"]) [] oracleIncl).2 =
      .ok ⟨["pool-A", "pool-B"], some ["incA"]⟩ := by
  refine (getPools_included_from_first "eth" (by decide) "A" ["B"] [] oracleIncl
    (fun x => if x = "A" then ⟨"pool-A", some ["incA"]⟩ else ⟨"pool-B", some ["incB"]⟩)
    ?_).trans ?_
  · intro x hx
    rcases List.mem_cons.mp hx with rfl | hx2
    · rfl
    · rcases List.mem_singleton.mp hx2 with rfl
      rfl
  · rfl

end GT
